import Mathlib

/-!
Verification of the habit-tracker core: a shallow embedding of the streak
state machine (RecordHabitCheckUseCase), the recurrence schedule evaluator
(CheckHabitReminderDueUseCase.isDue), the due-habit selector
(GetHabitsDueForReminderUseCase.execute plus the reminders handler), the
badge detector (HabitBadges.checkForNewBadges) and the history
reconstruction (HabitAnalytics.computeCheckHistory), together with theorems
settling the spec claims.

Modelling conventions:
- Calendar days (YYYY-MM-DD strings in the source, compared and incremented
  as whole days) are modelled as natural day numbers.
- A missing lastCheckedDate (the empty string in the source) is Option.none.
- Optional JS fields (reminderEnabled, disabled, reminderSchedule,
  createdAt) are Option; the source only ever tests them with === false,
  === true or truthiness, which the model mirrors.
- The JS arrays skipped, dropped, checked and badges are lists; the source
  guards every read with (xs or empty), so a missing array and an empty
  array are indistinguishable and both are modelled as the empty list.
- Timezone conversion (new Date(d.toLocaleString(en-US, tz)) in the source)
  is an injectable total function tzView from zone name and civil time to
  civil time, as the spec itself prescribes for testability.
-/

/-- One element of habit.skipped: the streak value at the skip and the day. -/
structure SkippedDay where
  skippedDay : Nat
  date : Nat
deriving Repr, DecidableEq

/-- One element of habit.dropped: the streak value before the drop and the day. -/
structure DroppedDay where
  streakBeforeDrop : Nat
  date : Nat
deriving Repr, DecidableEq

/-- One element of habit.checked (explicit completion days of non-daily habits). -/
structure CheckedDay where
  date : Nat
deriving Repr, DecidableEq

/-- An earned badge. The source also stores an earnedAt wall-clock timestamp,
which no logic reads back; only the milestone type matters. -/
structure Badge where
  type : Nat
deriving Repr, DecidableEq

/-- The outcome tag of a reconstructed history entry. -/
inductive EntryType
  | completed
  | skipped
  | dropped
deriving Repr, DecidableEq

/-- One entry of the reconstructed check history: day, outcome, the running
streak after the entry, and (for drops) the streak before the drop. -/
structure CheckHistoryEntry where
  date : Nat
  type : EntryType
  streak : Nat
  streakBefore : Option Nat
deriving Repr, DecidableEq

/-- The persisted recurrence schedule, a tagged union as in Habit.ts. -/
inductive ReminderSchedule
  | daily (hour minute : Nat) (timezone : Option String)
  | weekly (daysOfWeek : List Nat) (hour minute : Nat) (timezone : Option String)
  | monthly (daysOfMonth : List Nat) (hour minute : Nat) (timezone : Option String)
  | interval (intervalDays : Nat) (hour minute : Nat) (timezone : Option String)
      (startDate : Option Nat)
deriving Repr, DecidableEq

/-- The hour field shared by every schedule variant. -/
def ReminderSchedule.hour : ReminderSchedule → Nat
  | .daily h _ _ => h
  | .weekly _ h _ _ => h
  | .monthly _ h _ _ => h
  | .interval _ h _ _ _ => h

/-- The minute field shared by every schedule variant. -/
def ReminderSchedule.minute : ReminderSchedule → Nat
  | .daily _ m _ => m
  | .weekly _ _ m _ => m
  | .monthly _ _ m _ => m
  | .interval _ _ m _ _ => m

/-- The timezone field shared by every schedule variant. -/
def ReminderSchedule.timezone : ReminderSchedule → Option String
  | .daily _ _ tz => tz
  | .weekly _ _ _ tz => tz
  | .monthly _ _ _ tz => tz
  | .interval _ _ _ tz _ => tz

/-- Whether the schedule has type daily. -/
def ReminderSchedule.isDaily : ReminderSchedule → Bool
  | .daily _ _ _ => true
  | _ => false

/-- The Habit entity of Habit.ts. Day strings are day numbers; the empty
lastCheckedDate is none. -/
structure Habit where
  id : String
  userId : Nat
  name : String
  streak : Nat
  createdAt : Option Nat
  lastCheckedDate : Option Nat
  skipped : List SkippedDay
  dropped : List DroppedDay
  checked : List CheckedDay
  reminderSchedule : Option ReminderSchedule
  reminderEnabled : Option Bool
  disabled : Option Bool
  badges : List Badge
deriving Repr, DecidableEq

/-- A civil date-time as the evaluator observes it: day number plus the
clock fields the source reads off a JS Date (getHours, getMinutes, getDay,
getDate). -/
structure CivilTime where
  day : Nat
  hour : Nat
  minute : Nat
  dayOfWeek : Nat
  dayOfMonth : Nat
deriving Repr, DecidableEq

/-- A check-in outcome fed to the streak state machine: execute with
completed = true, execute with completed = false, or skipHabit. -/
inductive Outcome
  | completed
  | dropped
  | skipped
deriving Repr, DecidableEq

/-- Whether the habit counts as daily for the state machine and the
reconstruction: no schedule, or a schedule of type daily. -/
def Habit.isDailySchedule (h : Habit) : Bool :=
  match h.reminderSchedule with
  | none => true
  | some s => s.isDaily

/-- BADGE_MILESTONES of HabitBadges.ts. -/
def BADGE_MILESTONES : List Nat := [5, 10, 30, 90]

/-- checkForNewBadges of HabitBadges.ts: every milestone reached by the
streak and not already earned, in the fixed ascending milestone order. -/
def checkForNewBadges (currentStreak : Nat) (existingBadges : List Badge) : List Nat :=
  let earnedBadgeTypes := existingBadges.map (fun b => b.type)
  BADGE_MILESTONES.filter (fun milestone =>
    decide (milestone ≤ currentStreak) && !(earnedBadgeTypes.contains milestone))

/-- Ascending insertion of a badge by milestone type. -/
def insertBadge (b : Badge) : List Badge → List Badge
  | [] => [b]
  | c :: rest => if b.type ≤ c.type then b :: c :: rest else c :: insertBadge b rest

/-- Ascending sort of badges by milestone type, the effect of the source
sort by (a.type - b.type). Duplicate types never occur because awardBadge
refuses them. -/
def sortBadges : List Badge → List Badge
  | [] => []
  | b :: rest => insertBadge b (sortBadges rest)

/-- awardBadge of HabitBadges.ts: append the badge unless already earned,
then sort by type. -/
def awardBadge (badgeType : Nat) (existingBadges : List Badge) : List Badge :=
  if existingBadges.any (fun b => b.type == badgeType) then existingBadges
  else sortBadges (existingBadges ++ [⟨badgeType⟩])

/-- awardBadges of HabitBadges.ts: fold awardBadge over the new types. -/
def awardBadges (badgeTypes : List Nat) (existingBadges : List Badge) : List Badge :=
  badgeTypes.foldl (fun acc t => awardBadge t acc) existingBadges

/-- The streak state machine of RecordHabitCheckUseCase (execute and
skipHabit): one check-in transition. The source guards with
lastCheckedDate === today and returns the habit unchanged; otherwise the
completed path picks the new streak from lastCheckedDate (the inner
lastCheckedDate === today arm of the source is unreachable under the outer
guard), appends today to checked for non-daily habits, and merges newly
crossed badges; the dropped path zeroes the streak, appends a DroppedDay,
clears skipped and keeps badges; the skip path appends a SkippedDay and
keeps the streak. Every path stamps lastCheckedDate with today. -/
def transition (h : Habit) (today : Nat) (o : Outcome) : Habit :=
  if h.lastCheckedDate = some today then h
  else
    match o with
    | Outcome.completed =>
      let yesterday := today - 1
      let newStreak : Nat :=
        match h.lastCheckedDate with
        | none => 1
        | some d => if d = yesterday then h.streak + 1 else 1
      let updatedChecked :=
        if h.isDailySchedule then h.checked
        else if h.checked.any (fun c => c.date == today) then h.checked
        else h.checked ++ [⟨today⟩]
      let updatedBadges := awardBadges (checkForNewBadges newStreak h.badges) h.badges
      { h with streak := newStreak, lastCheckedDate := some today,
               checked := updatedChecked, badges := updatedBadges }
    | Outcome.dropped =>
      { h with streak := 0, lastCheckedDate := some today,
               skipped := [], dropped := h.dropped ++ [⟨h.streak, today⟩] }
    | Outcome.skipped =>
      { h with lastCheckedDate := some today,
               skipped := h.skipped ++ [⟨h.streak, today⟩] }

/-- The interval date gate of isDue: the day difference from the start is
nonnegative and divisible by the interval length. -/
def intervalGate (start day intervalDays : Nat) : Bool :=
  decide (start ≤ day) && decide ((day - start) % intervalDays = 0)

/-- isDue of CheckHabitReminderDueUseCase. tzView is the injected timezone
conversion standing for new Date(checkDate.toLocaleString(en-US, tz)).
Mirrors the source: reminders-off gate, default daily 22:00 UTC schedule,
conversion only when the schedule names a timezone different from the
observer timezone, exact hour and minute match, then the per-type date
gate. The source never consults habit.disabled here. -/
def isDue (tzView : String → CivilTime → CivilTime) (habit : Habit)
    (checkDate : CivilTime) (checkHour checkMinute : Nat) (timezone : String) : Bool :=
  if habit.reminderEnabled = some false then false
  else
    let schedule := habit.reminderSchedule.getD (ReminderSchedule.daily 22 0 (some "UTC"))
    let effective : Nat × Nat × CivilTime :=
      match schedule.timezone with
      | some tz =>
        if tz = timezone then (checkHour, checkMinute, checkDate)
        else
          let t := tzView tz checkDate
          (t.hour, t.minute, t)
      | none => (checkHour, checkMinute, checkDate)
    if effective.1 ≠ schedule.hour ∨ effective.2.1 ≠ schedule.minute then false
    else
      match schedule with
      | ReminderSchedule.daily _ _ _ => true
      | ReminderSchedule.weekly days _ _ _ => days.contains effective.2.2.dayOfWeek
      | ReminderSchedule.monthly days _ _ _ => days.contains effective.2.2.dayOfMonth
      | ReminderSchedule.interval n _ _ _ startDate =>
        match startDate with
        | some s => intervalGate s effective.2.2.day n
        | none =>
          match habit.createdAt with
          | some c => intervalGate c effective.2.2.day n
          | none => false

/-- One user as the Due-Habit Selector sees it: the outcome of awaiting
getUserHabits (a rejection, a null record, or a habit list) and the outcome
of awaiting getUserPreferences (a rejection or an optional timezone name).
The IHabitRepository contract lets either promise reject. -/
structure UserRecord where
  habitsResult : Except String (Option (List Habit))
  prefsResult : Except String (Option String)
deriving Repr

/-- The per-habit filter of the Selector loop body: skip disabled habits,
skip habits already checked on the user-local day, otherwise keep the habit
when isDue says so. -/
def dueHabitsForUser (tzView : String → CivilTime → CivilTime) (habits : List Habit)
    (userDate : CivilTime) (userHour userMinute : Nat) (userTimezone : String) : List Habit :=
  habits.filter (fun habit =>
    if habit.disabled = some true then false
    else if habit.lastCheckedDate = some userDate.day then false
    else isDue tzView habit userDate userHour userMinute userTimezone)

/-- GetHabitsDueForReminderUseCase.execute: iterate the users in order; a
rejected repository promise propagates out of the whole iteration (the loop
has no try or catch), a null habit record skips the user, otherwise the
server instant is converted to the user timezone when it differs and the
per-habit filter collects the due habits in order. -/
def selectDue (tzView : String → CivilTime → CivilTime) (users : List UserRecord)
    (currentDate : CivilTime) (currentHour currentMinute : Nat)
    (serverTimezone : String) : Except String (List Habit) :=
  match users with
  | [] => Except.ok []
  | u :: rest =>
    match u.habitsResult with
    | Except.error e => Except.error e
    | Except.ok none => selectDue tzView rest currentDate currentHour currentMinute serverTimezone
    | Except.ok (some habits) =>
      match u.prefsResult with
      | Except.error e => Except.error e
      | Except.ok prefs =>
        let userTimezone := prefs.getD "UTC"
        let view : Nat × Nat × CivilTime :=
          if userTimezone = serverTimezone then (currentHour, currentMinute, currentDate)
          else
            let t := tzView userTimezone currentDate
            (t.hour, t.minute, t)
        let dueHere := dueHabitsForUser tzView habits view.2.2 view.1 view.2.1 userTimezone
        match selectDue tzView rest currentDate currentHour currentMinute serverTimezone with
        | Except.error e => Except.error e
        | Except.ok dueRest => Except.ok (dueHere ++ dueRest)

/-- One step of the delivery loop of the reminders handler: a successful
send bumps successCount, a failed send bumps errorCount and records the
user and message; the catch keeps the loop going. -/
def processRemindersStep (acc : Nat × Nat × List (Nat × String))
    (entry : Nat × Except String Unit) : Nat × Nat × List (Nat × String) :=
  match entry.2 with
  | Except.ok _ => (acc.1 + 1, acc.2.1, acc.2.2)
  | Except.error msg => (acc.1, acc.2.1 + 1, acc.2.2 ++ [(entry.1, msg)])

/-- The per-user delivery loop of api/reminders.ts: fold the send outcomes,
counting successes and failures without aborting. -/
def processReminders (sends : List (Nat × Except String Unit)) : Nat × Nat × List (Nat × String) :=
  sends.foldl processRemindersStep (0, 0, [])

/-- The inclusive day range from a to b ascending; empty when b < a. -/
def dayRange (a b : Nat) : List Nat :=
  (List.range (b + 1 - a)).map (fun i => a + i)

/-- The backward completion-marking walk of computeDailyHabitHistory: from
today downwards while completions remain, break on a drop day, walk past a
skip day, break on or before the most recent drop day, otherwise mark the
day completed and consume one completion. -/
def backwardMark (droppedHas skippedHas : Nat → Bool) (mostRecentDrop : Option Nat) :
    List Nat → Nat → List Nat
  | [], _ => []
  | _ :: _, 0 => []
  | d :: rest, r + 1 =>
    if droppedHas d then []
    else if skippedHas d then backwardMark droppedHas skippedHas mostRecentDrop rest (r + 1)
    else if (match mostRecentDrop with | some m => decide (d ≤ m) | none => false) then []
    else d :: backwardMark droppedHas skippedHas mostRecentDrop rest r

/-- The pre-drop backward inference of computeDailyHabitHistory: from the
day before a drop downwards while inferred completions remain, walking past
drop and skip days, marking every other day completed. -/
def preDropMark (droppedHas skippedHas : Nat → Bool) :
    List Nat → Nat → List Nat
  | [], _ => []
  | _ :: _, 0 => []
  | d :: rest, r + 1 =>
    if droppedHas d || skippedHas d then preDropMark droppedHas skippedHas rest (r + 1)
    else d :: preDropMark droppedHas skippedHas rest r

/-- The forward replay of computeDailyHabitHistory: walk the days in order
with the running streak, emitting a dropped entry (streak reset), a skipped
entry (streak kept) or a completed entry (streak bumped); unmarked days are
omitted. -/
def replayForward (droppedGet : Nat → Option DroppedDay) (skippedHas completedHas : Nat → Bool) :
    List Nat → Nat → List CheckHistoryEntry
  | [], _ => []
  | d :: rest, cur =>
    match droppedGet d with
    | some drop =>
      { date := d, type := EntryType.dropped, streak := 0,
        streakBefore := some drop.streakBeforeDrop }
        :: replayForward droppedGet skippedHas completedHas rest 0
    | none =>
      if skippedHas d then
        { date := d, type := EntryType.skipped, streak := cur, streakBefore := none }
          :: replayForward droppedGet skippedHas completedHas rest cur
      else if completedHas d then
        { date := d, type := EntryType.completed, streak := cur + 1, streakBefore := none }
          :: replayForward droppedGet skippedHas completedHas rest (cur + 1)
      else replayForward droppedGet skippedHas completedHas rest cur

/-- Ascending insertion of a day number. -/
def insertNat (a : Nat) : List Nat → List Nat
  | [] => [a]
  | b :: rest => if a ≤ b then a :: b :: rest else b :: insertNat a rest

/-- Ascending sort of day numbers, the effect of the source sort by
localeCompare on YYYY-MM-DD strings. -/
def sortNats : List Nat → List Nat
  | [] => []
  | a :: rest => insertNat a (sortNats rest)

/-- computeDailyHabitHistory of HabitAnalytics.ts. The droppedDates Map is
modelled by last-entry-wins lookup (Map.set overwrites); its keys by
membership. When completions should not be inferred (reminders off,
disabled, or no interaction at all) only explicit skip and drop entries are
emitted with streak 0; when the stored streak is 0 the source returns the
initial empty history; otherwise the backward walks determine the completed
set and the forward replay produces the timeline. -/
def computeDailyHabitHistory (habit : Habit) (creationDate today : Nat) :
    List CheckHistoryEntry :=
  let skippedHas : Nat → Bool := fun d => habit.skipped.any (fun s => s.date == d)
  let droppedHas : Nat → Bool := fun d => habit.dropped.any (fun x => x.date == d)
  let droppedGet : Nat → Option DroppedDay := fun d =>
    habit.dropped.reverse.find? (fun x => x.date == d)
  let hasUserInteraction : Bool :=
    decide (0 < habit.streak) || !habit.skipped.isEmpty || !habit.dropped.isEmpty
  let shouldInferCompletions : Bool :=
    decide (habit.reminderEnabled ≠ some false) &&
    decide (habit.disabled ≠ some true) && hasUserInteraction
  if shouldInferCompletions = false then
    (dayRange creationDate today).filterMap (fun d =>
      match droppedGet d with
      | some drop =>
        some { date := d, type := EntryType.dropped, streak := 0,
               streakBefore := some drop.streakBeforeDrop }
      | none =>
        if skippedHas d then
          some { date := d, type := EntryType.skipped, streak := 0, streakBefore := none }
        else none)
  else if habit.streak = 0 then []
  else
    let daysAsc := dayRange creationDate today
    let daysDesc := daysAsc.reverse
    let mostRecentDropDate := daysDesc.find? droppedHas
    let backMarks := backwardMark droppedHas skippedHas mostRecentDropDate daysDesc habit.streak
    let dropDatesAsc := sortNats (habit.dropped.map (fun x => x.date)).dedup
    let preMarks := dropDatesAsc.foldr (fun dropDate acc =>
      match droppedGet dropDate with
      | some drop =>
        if 0 < drop.streakBeforeDrop then
          preDropMark droppedHas skippedHas
            (if dropDate = 0 then []
             else (dayRange creationDate (dropDate - 1)).reverse)
            drop.streakBeforeDrop ++ acc
        else acc
      | none => acc) []
    let completedHas : Nat → Bool := fun d => backMarks.contains d || preMarks.contains d
    replayForward droppedGet skippedHas completedHas daysAsc 0

/-- The chronological walk of computeNonDailyHabitHistory: event days in
ascending order, days after today or before creation walked past, drop then
skip then checked classification with the running streak; the bare creation
day emits nothing. -/
def nonDailyWalk (droppedGet : Nat → Option DroppedDay) (skippedHas checkedHas : Nat → Bool)
    (creationDate today : Nat) : List Nat → Nat → List CheckHistoryEntry
  | [], _ => []
  | d :: rest, cur =>
    if today < d then nonDailyWalk droppedGet skippedHas checkedHas creationDate today rest cur
    else if d < creationDate then
      nonDailyWalk droppedGet skippedHas checkedHas creationDate today rest cur
    else
      match droppedGet d with
      | some drop =>
        { date := d, type := EntryType.dropped, streak := 0,
          streakBefore := some drop.streakBeforeDrop }
          :: nonDailyWalk droppedGet skippedHas checkedHas creationDate today rest 0
      | none =>
        if skippedHas d then
          { date := d, type := EntryType.skipped, streak := cur, streakBefore := none }
            :: nonDailyWalk droppedGet skippedHas checkedHas creationDate today rest cur
        else if checkedHas d then
          { date := d, type := EntryType.completed, streak := cur + 1, streakBefore := none }
            :: nonDailyWalk droppedGet skippedHas checkedHas creationDate today rest (cur + 1)
        else nonDailyWalk droppedGet skippedHas checkedHas creationDate today rest cur

/-- computeNonDailyHabitHistory of HabitAnalytics.ts: merge checked,
skipped, dropped and the creation day into one sorted set of event days and
replay them chronologically. -/
def computeNonDailyHabitHistory (habit : Habit) (creationDate today : Nat) :
    List CheckHistoryEntry :=
  let skippedHas : Nat → Bool := fun d => habit.skipped.any (fun s => s.date == d)
  let droppedGet : Nat → Option DroppedDay := fun d =>
    habit.dropped.reverse.find? (fun x => x.date == d)
  let checkedHas : Nat → Bool := fun d => habit.checked.any (fun c => c.date == d)
  let sortedDates := sortNats
    ((habit.checked.map (fun c => c.date) ++ habit.skipped.map (fun s => s.date)
      ++ habit.dropped.map (fun x => x.date) ++ [creationDate]).dedup)
  nonDailyWalk droppedGet skippedHas checkedHas creationDate today sortedDates 0

/-- computeCheckHistory of HabitAnalytics.ts: empty without a creation
date, the daily inference for daily habits, the explicit-event walk for the
others. today is the evaluation day (new Date() in the source). -/
def computeCheckHistory (habit : Habit) (today : Nat) : List CheckHistoryEntry :=
  match habit.createdAt with
  | none => []
  | some creationDate =>
    if habit.isDailySchedule then computeDailyHabitHistory habit creationDate today
    else computeNonDailyHabitHistory habit creationDate today

/-- Every event day recorded on the habit. -/
def eventDates (h : Habit) : List Nat :=
  h.skipped.map (fun s => s.date) ++ h.dropped.map (fun x => x.date)
    ++ h.checked.map (fun c => c.date)

/-- The data-model invariants named by the spec: a creation day exists and
is not after today, the three event lists are strictly ascending
(append-only ordered), and every event day lies between creation and today.
The streak is a natural number, so streak nonnegativity is built in. -/
def dataModelInvariants (h : Habit) (today : Nat) : Prop :=
  h.createdAt.isSome = true ∧
  h.createdAt.getD 0 ≤ today ∧
  List.Pairwise (· < ·) (h.skipped.map (fun s => s.date)) ∧
  List.Pairwise (· < ·) (h.dropped.map (fun x => x.date)) ∧
  List.Pairwise (· < ·) (h.checked.map (fun c => c.date)) ∧
  ∀ d ∈ eventDates h, h.createdAt.getD 0 ≤ d ∧ d ≤ today

instance dataModelInvariantsDecidable (h : Habit) (today : Nat) :
    Decidable (dataModelInvariants h today) := by
  unfold dataModelInvariants
  infer_instance

/-- The identity timezone view: an observer already in the schedule zone. -/
def tzId : String → CivilTime → CivilTime := fun _ t => t

/-- VercelKVHabitRepository.createHabit: a fresh habit with streak 0, no
lastCheckedDate, empty event lists, the default daily 22:00 schedule in the
given timezone, reminders on. The generated id string is opaque. -/
def createHabit (userId : Nat) (habitName : String) (timezone : String)
    (today : Nat) : Habit :=
  { id := "habit-1", userId := userId, name := habitName, streak := 0,
    createdAt := some today, lastCheckedDate := none,
    skipped := [], dropped := [], checked := [],
    reminderSchedule := some (ReminderSchedule.daily 22 0 (some timezone)),
    reminderEnabled := some true, disabled := none, badges := [] }

/-- The drop-day scenario habit after day 4: created on day 0, completed on
days 1 to 4. -/
def scenarioDay4 : Habit :=
  transition (transition (transition (transition
    (createHabit 1 "read" "UTC" 0) 1 Outcome.completed) 2 Outcome.completed)
    3 Outcome.completed) 4 Outcome.completed

/-- The drop-day scenario habit after day 5: dropped on day 5. -/
def scenarioDay5 : Habit :=
  transition scenarioDay4 5 Outcome.dropped

/-- A sample evaluation instant: day 100, a Wednesday the 15th. The clock
fields of the instant itself are only read after a timezone conversion. -/
def cDay : CivilTime := { day := 100, hour := 22, minute := 0, dayOfWeek := 3, dayOfMonth := 15 }

/-- A habit with reminders on but the disabled flag set, no schedule of its
own (so the default daily 22:00 UTC applies). -/
def habitDisabledTrue : Habit :=
  { (createHabit 2 "water" "UTC" 90) with
    reminderSchedule := none
    disabled := some true }

/-- A habit with reminders switched off. -/
def habitRemindersOff : Habit :=
  { (createHabit 3 "run" "UTC" 90) with reminderEnabled := some false }

/-- A habit with no schedule and reminderEnabled unset: the implicit
default daily 22:00 UTC schedule governs it. -/
def habitDefaultDue : Habit :=
  { (createHabit 4 "stretch" "UTC" 90) with
    reminderSchedule := none
    reminderEnabled := none }

/-- A habit whose own schedule is daily at 09:00 UTC. -/
def habitNineAm : Habit :=
  { (createHabit 5 "journal" "UTC" 90) with
    reminderSchedule := some (ReminderSchedule.daily 9 0 (some "UTC")) }

/-- A user whose habit fetch rejects with a persistence error. -/
def userFetchError : UserRecord :=
  { habitsResult := Except.error "kv read failed", prefsResult := Except.ok none }

/-- A user whose habit record is null (the concrete KV repository swallows
read errors into null). -/
def userNullRecord : UserRecord :=
  { habitsResult := Except.ok none, prefsResult := Except.ok none }

/-- A healthy user owning one habit due at 22:00 UTC. -/
def userWithDueHabit : UserRecord :=
  { habitsResult := Except.ok (some [habitDefaultDue]), prefsResult := Except.ok none }

/-- A user whose habit record loads but whose preferences fetch rejects. -/
def userPrefsError : UserRecord :=
  { habitsResult := Except.ok (some [habitDefaultDue]),
    prefsResult := Except.error "prefs read failed" }

/-- A habit already checked on day 7 with a positive streak. -/
def habitCheckedToday : Habit :=
  { (createHabit 6 "meditate" "UTC" 0) with
    lastCheckedDate := some 7
    streak := 2 }

/-- A habit last checked on day 3 with streak 2: day 5 is a gap of two
days, the silent-restart case. -/
def habitCheckedDay3 : Habit :=
  { (createHabit 7 "write" "UTC" 0) with
    lastCheckedDate := some 3
    streak := 2 }

/-- The at-most-once guard: a habit already checked today passes through
the state machine unchanged. -/
theorem transition_noop (h : Habit) (today : Nat) (o : Outcome)
    (hEq : h.lastCheckedDate = some today) : transition h today o = h := by
  unfold transition
  rw [if_pos hEq]

/-- Every transition that fires stamps lastCheckedDate with today. -/
theorem transition_lastCheckedDate (h : Habit) (today : Nat) (o : Outcome)
    (hne : h.lastCheckedDate ≠ some today) :
    (transition h today o).lastCheckedDate = some today := by
  unfold transition
  rw [if_neg hne]
  cases o <;> rfl

/-- Claim C3: if the habit was already checked today the transition returns
it unchanged for every outcome, and applying the transition twice on the
same day equals applying it once. -/
theorem claim_checkin_idempotent (h : Habit) (today : Nat) (o : Outcome) :
    (h.lastCheckedDate = some today → transition h today o = h) ∧
    transition (transition h today o) today o = transition h today o := by
  constructor
  · exact transition_noop h today o
  · by_cases hEq : h.lastCheckedDate = some today
    · rw [transition_noop h today o hEq]
      exact transition_noop h today o hEq
    · exact transition_noop _ today o (transition_lastCheckedDate h today o hEq)

/-- Claim C3 witness at a concrete habit checked on day 7. -/
theorem claim_checkin_idempotent_witness :
    transition habitCheckedToday 7 Outcome.completed = habitCheckedToday ∧
    transition (transition habitCheckedToday 7 Outcome.completed) 7 Outcome.completed
      = transition habitCheckedToday 7 Outcome.completed :=
  ⟨(claim_checkin_idempotent habitCheckedToday 7 Outcome.completed).1 rfl,
   (claim_checkin_idempotent habitCheckedToday 7 Outcome.completed).2⟩

/-- Claim C4: on a completed outcome for a habit not yet checked today, the
streak becomes 1 on a first-ever check, increments when the last check was
yesterday, and restarts at 1 on any other last check; no dropped entry is
appended in any completed case, lastCheckedDate becomes today and skipped
is preserved. -/
theorem claim_completed_streak_rule (h : Habit) (today : Nat)
    (hne : h.lastCheckedDate ≠ some today) :
    (transition h today Outcome.completed).lastCheckedDate = some today ∧
    (transition h today Outcome.completed).skipped = h.skipped ∧
    (transition h today Outcome.completed).dropped = h.dropped ∧
    (h.lastCheckedDate = none → (transition h today Outcome.completed).streak = 1) ∧
    (h.lastCheckedDate = some (today - 1) →
      (transition h today Outcome.completed).streak = h.streak + 1) ∧
    (∀ d, h.lastCheckedDate = some d → d ≠ today - 1 →
      (transition h today Outcome.completed).streak = 1) := by
  unfold transition
  rw [if_neg hne]
  refine ⟨rfl, rfl, rfl, ?_, ?_, ?_⟩
  · intro h0
    simp [h0]
  · intro h1
    simp [h1]
  · intro d hd hdne
    simp [hd, hdne]

/-- Claim C4 witness: the silent restart at the concrete gap habit. -/
theorem claim_completed_streak_rule_witness :
    (transition habitCheckedDay3 5 Outcome.completed).streak = 1 ∧
    (transition habitCheckedDay3 5 Outcome.completed).dropped = habitCheckedDay3.dropped ∧
    (transition habitCheckedDay3 5 Outcome.completed).lastCheckedDate = some 5 ∧
    (transition habitCheckedDay3 5 Outcome.completed).skipped = habitCheckedDay3.skipped := by
  have hmain := claim_completed_streak_rule habitCheckedDay3 5 (by decide)
  exact ⟨hmain.2.2.2.2.2 3 rfl (by decide), hmain.2.2.1, hmain.1, hmain.2.1⟩

/-- Claim C5: on a dropped outcome for a habit not yet checked today, the
streak becomes 0, exactly one DroppedDay carrying the old streak and today
is appended, skipped is cleared, lastCheckedDate becomes today and badges
are untouched. -/
theorem claim_dropped_semantics (h : Habit) (today : Nat)
    (hne : h.lastCheckedDate ≠ some today) :
    (transition h today Outcome.dropped).streak = 0 ∧
    (transition h today Outcome.dropped).dropped
      = h.dropped ++ [{ streakBeforeDrop := h.streak, date := today }] ∧
    (transition h today Outcome.dropped).skipped = [] ∧
    (transition h today Outcome.dropped).lastCheckedDate = some today ∧
    (transition h today Outcome.dropped).badges = h.badges := by
  unfold transition
  rw [if_neg hne]
  exact ⟨rfl, rfl, rfl, rfl, rfl⟩

/-- Claim C5 witness at the concrete habit last checked on day 3. -/
theorem claim_dropped_semantics_witness :
    (transition habitCheckedDay3 5 Outcome.dropped).streak = 0 ∧
    (transition habitCheckedDay3 5 Outcome.dropped).dropped
      = habitCheckedDay3.dropped
        ++ [{ streakBeforeDrop := habitCheckedDay3.streak, date := 5 }] ∧
    (transition habitCheckedDay3 5 Outcome.dropped).skipped = [] ∧
    (transition habitCheckedDay3 5 Outcome.dropped).lastCheckedDate = some 5 ∧
    (transition habitCheckedDay3 5 Outcome.dropped).badges = habitCheckedDay3.badges :=
  claim_dropped_semantics habitCheckedDay3 5 (by decide)

/-- Claim C1: the reconstruction fidelity guarantee fails on the code. The
drop-day state, reached by legitimate transitions and satisfying every
data-model invariant, has streak 0, yet computeCheckHistory returns the
empty timeline, which has no final entry at all: computeDailyHabitHistory
returns the untouched empty history whenever the stored streak is 0 while
drops or skips exist and inference is active. -/
theorem claim_reconstruction_fidelity_failure :
    dataModelInvariants scenarioDay5 5 ∧
    scenarioDay5.streak = 0 ∧
    computeCheckHistory scenarioDay5 5 = [] ∧
    (computeCheckHistory scenarioDay5 5).getLast? = none := by
  refine ⟨by decide, by decide, by decide, by decide⟩

/-- Claim C2: the state-machine half of the drop-day scenario holds (streak
4 after days 1 to 4, then streak 0 with one DroppedDay on day 5), but the
reconstruction half fails: computeCheckHistory on day 5 returns the empty
list instead of four completed entries followed by a dropped entry. -/
theorem claim_drop_scenario_eval :
    scenarioDay4.streak = 4 ∧
    scenarioDay5.streak = 0 ∧
    scenarioDay5.dropped = [{ streakBeforeDrop := 4, date := 5 }] ∧
    scenarioDay5.skipped = [] ∧
    computeCheckHistory scenarioDay5 5 = [] := by
  refine ⟨by decide, by decide, by decide, by decide, by decide⟩

/-- Claim C8: checkForNewBadges returns exactly the milestones reached by
the streak and not already earned, in ascending order, with the two
concrete instances of the spec. -/
theorem claim_milestone_detector (s : Nat) (E : List Badge) :
    (∀ t, t ∈ checkForNewBadges s E ↔
      (t ∈ BADGE_MILESTONES ∧ t ≤ s ∧ ∀ b ∈ E, b.type ≠ t)) ∧
    List.Pairwise (· < ·) (checkForNewBadges s E) ∧
    checkForNewBadges 30 [⟨5⟩, ⟨10⟩] = [30] ∧
    checkForNewBadges 30 [] = [5, 10, 30] := by
  refine ⟨?_, ?_, by decide, by decide⟩
  · intro t
    unfold checkForNewBadges
    simp [List.mem_filter]
  · exact List.Pairwise.filter _ (by decide)

/-- Claim C8 witness: milestone 5 detected at streak 7 with nothing earned,
and ascending order at streak 90. -/
theorem claim_milestone_detector_witness :
    5 ∈ checkForNewBadges 7 [] ∧ List.Pairwise (· < ·) (checkForNewBadges 90 []) :=
  ⟨((claim_milestone_detector 7 []).1 5).mpr (by decide),
   (claim_milestone_detector 90 []).2.1⟩

/-- Claim C7: a daily 09:00 UTC schedule observed from UTC is due exactly
at hour 9, minute 0, on every date; there is no catch-up window. -/
theorem claim_evaluator_exact_minute (tzView : String → CivilTime → CivilTime)
    (habit : Habit) (checkDate : CivilTime) (checkHour checkMinute : Nat)
    (hsch : habit.reminderSchedule = some (ReminderSchedule.daily 9 0 (some "UTC")))
    (hen : habit.reminderEnabled ≠ some false)
    (_hdis : habit.disabled ≠ some true) :
    (isDue tzView habit checkDate checkHour checkMinute "UTC" = true)
      ↔ (checkHour = 9 ∧ checkMinute = 0) := by
  unfold isDue
  rw [if_neg hen, hsch]
  simp only [Option.getD_some, ReminderSchedule.timezone, ReminderSchedule.hour,
    ReminderSchedule.minute]
  simp only [if_true]
  by_cases h9 : checkHour = 9 <;> by_cases m0 : checkMinute = 0 <;> simp [h9, m0]

/-- Claim C7 witness: the 09:00 habit is due at 09:00 and not at 09:01 or
08:59. -/
theorem claim_evaluator_exact_minute_witness :
    isDue tzId habitNineAm cDay 9 0 "UTC" = true ∧
    isDue tzId habitNineAm cDay 9 1 "UTC" ≠ true ∧
    isDue tzId habitNineAm cDay 8 59 "UTC" ≠ true := by
  refine ⟨?_, ?_, ?_⟩
  · exact (claim_evaluator_exact_minute tzId habitNineAm cDay 9 0 rfl
      (by decide) (by decide)).mpr ⟨rfl, rfl⟩
  · intro hdue
    have := (claim_evaluator_exact_minute tzId habitNineAm cDay 9 1 rfl
      (by decide) (by decide)).mp hdue
    exact absurd this.2 (by decide)
  · intro hdue
    have := (claim_evaluator_exact_minute tzId habitNineAm cDay 8 59 rfl
      (by decide) (by decide)).mp hdue
    exact absurd this.1 (by decide)

/-- Claim C10: a habit with no schedule of its own and reminders not off is
governed by the implicit default daily 22:00 UTC schedule: with a UTC
observer it is due exactly at hour 22, minute 0, on every date. -/
theorem claim_default_schedule (tzView : String → CivilTime → CivilTime)
    (habit : Habit) (checkDate : CivilTime) (checkHour checkMinute : Nat)
    (hsch : habit.reminderSchedule = none)
    (hen : habit.reminderEnabled ≠ some false) :
    (isDue tzView habit checkDate checkHour checkMinute "UTC" = true)
      ↔ (checkHour = 22 ∧ checkMinute = 0) := by
  unfold isDue
  rw [if_neg hen, hsch]
  simp only [Option.getD_none, ReminderSchedule.timezone, ReminderSchedule.hour,
    ReminderSchedule.minute]
  simp only [if_true]
  by_cases h22 : checkHour = 22 <;> by_cases m0 : checkMinute = 0 <;> simp [h22, m0]

/-- Claim C10 witness: the schedule-less habit is due at 22:00 and not at
22:01. -/
theorem claim_default_schedule_witness :
    isDue tzId habitDefaultDue cDay 22 0 "UTC" = true ∧
    isDue tzId habitDefaultDue cDay 22 1 "UTC" ≠ true := by
  refine ⟨?_, ?_⟩
  · exact (claim_default_schedule tzId habitDefaultDue cDay 22 0 rfl
      (by decide)).mpr ⟨rfl, rfl⟩
  · intro hdue
    have := (claim_default_schedule tzId habitDefaultDue cDay 22 1 rfl
      (by decide)).mp hdue
    exact absurd this.2 (by decide)

/-- Claim C6 counterexample: a disabled habit with reminders on is still
reported due by isDue at the default 22:00 slot, so isDue does not gate on
the disabled flag. -/
theorem claim_activity_gate_counterexample :
    habitDisabledTrue.disabled = some true ∧
    habitDisabledTrue.reminderEnabled = some true ∧
    isDue tzId habitDisabledTrue cDay 22 0 "UTC" = true := by
  refine ⟨rfl, rfl, by decide⟩

/-- Claim C6 as amended: isDue returns false whenever reminderEnabled is
false, for every schedule and instant; the disabled flag is not read by
isDue, and disabled habits are instead excluded by the per-habit filter of
the Due-Habit Selector before isDue is consulted. -/
theorem claim_activity_gate (tzView : String → CivilTime → CivilTime)
    (habit : Habit) (checkDate : CivilTime) (checkHour checkMinute : Nat)
    (timezone : String) :
    (habit.reminderEnabled = some false →
      isDue tzView habit checkDate checkHour checkMinute timezone = false) ∧
    (∀ habits userDate userHour userMinute userTimezone,
      habit.disabled = some true →
      habit ∉ dueHabitsForUser tzView habits userDate userHour userMinute userTimezone) := by
  constructor
  · intro hoff
    unfold isDue
    rw [if_pos hoff]
  · intro habits userDate userHour userMinute userTimezone hdis hmem
    unfold dueHabitsForUser at hmem
    rw [List.mem_filter] at hmem
    have hpred := hmem.2
    simp only [hdis] at hpred
    simp at hpred

/-- Claim C6 amended witness: reminders-off habit not due at its own slot,
and the disabled habit filtered out of the due list by the Selector. -/
theorem claim_activity_gate_witness :
    isDue tzId habitRemindersOff cDay 22 0 "UTC" = false ∧
    habitDisabledTrue ∉ dueHabitsForUser tzId [habitDisabledTrue] cDay 22 0 "UTC" :=
  ⟨(claim_activity_gate tzId habitRemindersOff cDay 22 0 "UTC").1 rfl,
   (claim_activity_gate tzId habitDisabledTrue cDay 22 0 "UTC").2
     [habitDisabledTrue] cDay 22 0 "UTC" rfl⟩

/-- Claim C9 counterexample: with two users, the first failing its habit
fetch and the second owning a habit due at the evaluated instant, the
Selector returns the error and the second user is never evaluated, even
though alone the second user would yield the due habit. -/
theorem claim_failure_isolation_counterexample :
    selectDue tzId [userFetchError, userWithDueHabit] cDay 22 0 "UTC"
      = Except.error "kv read failed" ∧
    selectDue tzId [userWithDueHabit] cDay 22 0 "UTC"
      = Except.ok [habitDefaultDue] :=
  ⟨rfl, rfl⟩

/-- The counting part of the delivery fold, generalized over the running
accumulator. -/
theorem processReminders_foldl_count (sends : List (Nat × Except String Unit)) :
    ∀ s e errs,
      (sends.foldl processRemindersStep (s, e, errs)).1
        + (sends.foldl processRemindersStep (s, e, errs)).2.1
        = s + e + sends.length := by
  induction sends with
  | nil => intro s e errs; simp
  | cons hd tl ih =>
    intro s e errs
    cases hd with
    | mk uid r =>
      cases r with
      | ok u =>
        simp only [List.foldl_cons, processRemindersStep, List.length_cons]
        rw [ih (s + 1) e errs]
        omega
      | error msg =>
        simp only [List.foldl_cons, processRemindersStep, List.length_cons]
        rw [ih s (e + 1) (errs ++ [(uid, msg)])]
        omega

/-- Claim C9 as amended: a repository rejection while fetching one user,
whether of the habit record or of the preferences, aborts the whole
Selector iteration (the error propagates and no later user is evaluated); a
null habit record merely skips that user; and failure isolation exists only
in the delivery loop of the reminders handler, whose per-user catch
processes every user, successes plus failures summing to the full user
count. -/
theorem claim_failure_isolation (tzView : String → CivilTime → CivilTime) :
    (∀ (u : UserRecord) (rest : List UserRecord) (cd : CivilTime)
        (ch cm : Nat) (stz : String) (e : String),
      u.habitsResult = Except.error e →
      selectDue tzView (u :: rest) cd ch cm stz = Except.error e) ∧
    (∀ (u : UserRecord) (rest : List UserRecord) (cd : CivilTime)
        (ch cm : Nat) (stz : String) (habits : List Habit) (e : String),
      u.habitsResult = Except.ok (some habits) →
      u.prefsResult = Except.error e →
      selectDue tzView (u :: rest) cd ch cm stz = Except.error e) ∧
    (∀ (u : UserRecord) (rest : List UserRecord) (cd : CivilTime)
        (ch cm : Nat) (stz : String),
      u.habitsResult = Except.ok none →
      selectDue tzView (u :: rest) cd ch cm stz = selectDue tzView rest cd ch cm stz) ∧
    (∀ sends : List (Nat × Except String Unit),
      (processReminders sends).1 + (processReminders sends).2.1 = sends.length) := by
  refine ⟨?_, ?_, ?_, ?_⟩
  · intro u rest cd ch cm stz e hu
    unfold selectDue
    rw [hu]
  · intro u rest cd ch cm stz habits e hu hp
    unfold selectDue
    rw [hu, hp]
  · intro u rest cd ch cm stz hu
    conv_lhs => unfold selectDue
    rw [hu]
  · intro sends
    unfold processReminders
    rw [processReminders_foldl_count sends 0 0 []]
    omega

/-- Claim C9 amended witness: abort at the concrete user whose habit fetch
fails, abort at the concrete user whose preferences fetch fails, skip at
the concrete null user, and the delivery count at one failed and one
successful send. -/
theorem claim_failure_isolation_witness :
    selectDue tzId [userFetchError] cDay 22 0 "UTC" = Except.error "kv read failed" ∧
    selectDue tzId [userPrefsError, userWithDueHabit] cDay 22 0 "UTC"
      = Except.error "prefs read failed" ∧
    selectDue tzId [userNullRecord, userWithDueHabit] cDay 22 0 "UTC"
      = selectDue tzId [userWithDueHabit] cDay 22 0 "UTC" ∧
    (processReminders [(1, Except.error "send failed"), (2, Except.ok ())]).1
      + (processReminders [(1, Except.error "send failed"), (2, Except.ok ())]).2.1 = 2 :=
  ⟨(claim_failure_isolation tzId).1 userFetchError [] cDay 22 0 "UTC" "kv read failed" rfl,
   (claim_failure_isolation tzId).2.1 userPrefsError [userWithDueHabit] cDay 22 0 "UTC"
     [habitDefaultDue] "prefs read failed" rfl rfl,
   (claim_failure_isolation tzId).2.2.1 userNullRecord [userWithDueHabit] cDay 22 0 "UTC" rfl,
   (claim_failure_isolation tzId).2.2.2 [(1, Except.error "send failed"), (2, Except.ok ())]⟩
